import Mathlib

/-!
Shallow embedding of `go/samples/headers/main.go` — a genkit sample that
threads HTTP headers through a request context, gates three flows on a
bearer-shaped Authorization header, and serves a composite flow over HTTP.

External code (the genkit framework, the model backend, `encoding/json`)
is modelled as parameters: prompt execution is an oracle giving, per prompt,
either a reply text or a Go error message; `FlowHandle.Run` applies the flow
function directly (spec interface: run(context, input) -> (output, error));
JSON body decoding in the HTTP handler is a boolean outcome on the request.
-/

/-- Go `http.Header`: a map from canonical header name to a list of values.
Modelled as an association list whose string keys are already in canonical
MIME form (as `net/http` stores them). -/
abbrev Headers := List (String × List String)

/-- `http.Header.Get`: the first value stored under the key, or `""` when the
key is missing or its value list is empty. The flows always query with a
key already in canonical form, so no canonicalisation step is needed. -/
def hGet (h : Headers) (k : String) : String :=
  match h.find? (fun p => p.1 == k) with
  | some (_, v :: _) => v
  | _ => ""

/-- Character-list head test: `listIsHead pat l` is true when `pat` is an
initial segment of `l`. -/
def listIsHead : List Char → List Char → Bool
  | [], _ => true
  | _ :: _, [] => false
  | c :: cs, d :: ds => c == d && listIsHead cs ds

/-- Go `strings.HasPrefix s pre`: byte-wise initial-segment test; on unicode
text (all strings this program handles) this coincides with the
character-wise test on the strings' character lists. -/
def strStartsWith (s pre : String) : Bool := listIsHead pre.toList s.toList

/-- Dynamic values storable in a Go context: either an `http.Header` (the only
type this program stores) or some other value. -/
inductive GoVal where
  | headerVal (h : Headers)
  | otherVal (n : Nat)
deriving DecidableEq

/-- Context keys: the program's private `HeaderContextKey` or any other key. -/
inductive GoKey where
  | headerKey
  | otherKey (n : Nat)
deriving DecidableEq

/-- `context.Context` as an append-only key/value chain, most recent binding
first; `context.WithValue` prepends and `ctx.Value` returns the most recent
binding for a key. -/
abbrev GoContext := List (GoKey × GoVal)

/-- `ctx.Value k`: the most recently bound value for `k`, if any. -/
def ctxValue : GoContext → GoKey → Option GoVal
  | [], _ => none
  | (k', v) :: rest, k => if k' = k then some v else ctxValue rest k

/-- `WithHeaders ctx headers = context.WithValue(ctx, HeaderContextKey, headers)`. -/
def WithHeaders (ctx : GoContext) (h : Headers) : GoContext :=
  (GoKey.headerKey, GoVal.headerVal h) :: ctx

/-- `GetHeaders`: looks up `HeaderContextKey` and type-asserts to `http.Header`;
the Go function returns nil (here `none`) when the binding is absent or holds
a value of a different dynamic type. -/
def GetHeaders (ctx : GoContext) : Option Headers :=
  match ctxValue ctx GoKey.headerKey with
  | some (GoVal.headerVal h) => some h
  | _ => none

/-- The inline authorization check shared verbatim by all three flows:
`headers != nil && !strings.HasPrefix(headers.Get("Authorization"), "Bearer ")`.
`true` means the gate rejects the request. -/
def authGateFails (headers : Option Headers) : Bool :=
  match headers with
  | none => false
  | some h => !strStartsWith (hGet h "Authorization") "Bearer "

/-- Input of the simpleGreeting prompt/flow. -/
structure simpleGreetingInput where
  customerName : String
deriving DecidableEq

/-- Input of the greetingWithHistory prompt/flow. -/
structure customerTimeAndHistoryInput where
  customerName : String
  currentTime : String
  previousOrder : String
deriving DecidableEq

/-- Output record of the composite flow. `replies` has Go type `[]string` with
omitempty (nil slice modelled as `none`); `error` is a Go string with omitempty
(`""` is the zero value, omitted from the JSON encoding). -/
structure testAllCoffeeFlowsOutput where
  pass : Bool
  replies : Option (List String)
  error : String
deriving DecidableEq

/-- External prompt execution (`Prompt.Execute` followed by `resp.Text()`),
one entry per defined prompt. `Except.error msg` models a non-nil Go error
whose `Error()` method returns `msg`. -/
structure ModelOracle where
  simpleGreeting : simpleGreetingInput → Except String String
  greetingWithHistory : customerTimeAndHistoryInput → Except String String

/-- Body of the `simpleGreeting` streaming flow. `json.Marshal` of a struct of
strings never fails, and the streaming callback does not change the returned
value, so neither appears in the model. -/
def simpleGreetingFlowFn (o : ModelOracle) (ctx : GoContext)
    (input : simpleGreetingInput) : Except String String :=
  let headers := GetHeaders ctx
  if authGateFails headers then Except.error "invalid authorization header"
  else o.simpleGreeting input

/-- Body of the `greetingWithHistory` flow. -/
def greetingWithHistoryFlowFn (o : ModelOracle) (ctx : GoContext)
    (input : customerTimeAndHistoryInput) : Except String String :=
  let headers := GetHeaders ctx
  if authGateFails headers then Except.error "invalid authorization header"
  else o.greetingWithHistory input

/-- Body of the composite `testAllCoffeeFlows` flow. `FlowHandle.Run` is the
direct application of the sub-flow's function to the same context. Every
return path of the Go function carries a nil flow-level error, hence the
result is always `Except.ok`. -/
def coffeeFlowFn (o : ModelOracle) (ctx : GoContext) (_input : Unit) :
    Except String testAllCoffeeFlowsOutput :=
  let headers := GetHeaders ctx
  if authGateFails headers then
    Except.ok ⟨false, none, "invalid authorization header"⟩
  else
    match simpleGreetingFlowFn o ctx ⟨"Sam"⟩ with
    | Except.error e => Except.ok ⟨false, none, e⟩
    | Except.ok test1 =>
      match greetingWithHistoryFlowFn o ctx ⟨"Sam", "09:45am", "Caramel Macchiato"⟩ with
      | Except.error e => Except.ok ⟨false, none, e⟩
      | Except.ok test2 => Except.ok ⟨true, some [test1, test2], ""⟩

/-- The part of an inbound HTTP request the handler inspects. `bodyDecodeOk`
is the outcome of `json.NewDecoder(r.Body).Decode` into the empty input
struct: it is `false` whenever the body is not well-formed JSON (and also for
well-formed JSON that cannot decode into an empty struct). -/
structure HttpRequest where
  method : String
  contentLength : Int
  bodyDecodeOk : Bool
  header : Headers

/-- Response body written by the handler: plain text via `http.Error`, or the
JSON encoding of the composite flow's output. -/
inductive RespBody where
  | text (s : String)
  | jsonOut (o : testAllCoffeeFlowsOutput)
deriving DecidableEq

/-- An HTTP response: status code and body. -/
structure HttpResponse where
  status : Nat
  body : RespBody
deriving DecidableEq

/-- The `POST /testAllCoffeeFlows` handler. `rctx` is the request's base
context (`r.Context()`). The second component records whether the composite
flow was invoked. -/
def handleTestAllCoffeeFlows (o : ModelOracle) (rctx : GoContext)
    (r : HttpRequest) : HttpResponse × Bool :=
  if r.method ≠ "POST" then (⟨405, RespBody.text "Method not allowed"⟩, false)
  else if r.contentLength > 0 ∧ r.bodyDecodeOk = false then
    (⟨400, RespBody.text "Invalid input"⟩, false)
  else
    let ctx := WithHeaders rctx r.header
    match coffeeFlowFn o ctx () with
    | Except.error e => (⟨500, RespBody.text ("Flow error: " ++ e)⟩, true)
    | Except.ok out => (⟨200, RespBody.jsonOut out⟩, true)

/-- Helper: when no association-list entry is keyed by `k`, `hGet` yields `""`. -/
theorem hGet_eq_empty_of_no_key (h : Headers) (k : String)
    (hk : ∀ p ∈ h, p.1 ≠ k) : hGet h k = "" := by
  unfold hGet
  have hfind : h.find? (fun p => p.1 == k) = none := by
    apply List.find?_eq_none.mpr
    intro p hp
    simpa using hk p hp
  rw [hfind]

/-- C4: Round-trip law — retrieving headers from the context produced by
attaching `H` to any context `ctx` yields exactly `H`. -/
theorem c4_roundtrip (ctx : GoContext) (H : Headers) :
    GetHeaders (WithHeaders ctx H) = some H := by
  simp [GetHeaders, WithHeaders, ctxValue]

/-- C8: On a context that was never passed through `WithHeaders` (no binding
under the private header key), `GetHeaders` yields the absent marker `none`,
never an empty-but-present collection. -/
theorem c8_unattached_ctx_absent (ctx : GoContext)
    (h : ∀ p ∈ ctx, p.1 ≠ GoKey.headerKey) : GetHeaders ctx = none := by
  unfold GetHeaders
  have hv : ctxValue ctx GoKey.headerKey = none := by
    induction ctx with
    | nil => rfl
    | cons p rest ih =>
      unfold ctxValue
      have hp : p.1 ≠ GoKey.headerKey := h p (List.mem_cons_self p rest)
      rw [if_neg hp]
      exact ih (fun q hq => h q (List.mem_cons_of_mem p hq))
  rw [hv]

/-- C8 witness: a concrete context holding only an unrelated binding. -/
theorem c8_unattached_ctx_absent_witness :
    GetHeaders [(GoKey.otherKey 0, GoVal.otherVal 5)] = none :=
  c8_unattached_ctx_absent [(GoKey.otherKey 0, GoVal.otherVal 5)]
    (by intro p hp; simp at hp; rw [hp]; simp)

/-- C1: For every attached header collection, the gate fails exactly when the
`Authorization` entry lacks the literal case-sensitive `"Bearer "` head, and
when it has that head the gate passes regardless of what follows: both leaf
flows then behave exactly as the external prompt call. -/
theorem c1_gate_bearer_check (o : ModelOracle) (ctx : GoContext) (h : Headers)
    (hattach : GetHeaders ctx = some h) (in1 : simpleGreetingInput)
    (in2 : customerTimeAndHistoryInput) :
    (authGateFails (GetHeaders ctx) = true ↔
      strStartsWith (hGet h "Authorization") "Bearer " = false) ∧
    (strStartsWith (hGet h "Authorization") "Bearer " = false →
      simpleGreetingFlowFn o ctx in1 = Except.error "invalid authorization header" ∧
      greetingWithHistoryFlowFn o ctx in2 = Except.error "invalid authorization header" ∧
      coffeeFlowFn o ctx () = Except.ok ⟨false, none, "invalid authorization header"⟩) ∧
    (strStartsWith (hGet h "Authorization") "Bearer " = true →
      simpleGreetingFlowFn o ctx in1 = o.simpleGreeting in1 ∧
      greetingWithHistoryFlowFn o ctx in2 = o.greetingWithHistory in2) := by
  rw [hattach]
  cases hb : strStartsWith (hGet h "Authorization") "Bearer " with
  | false =>
    refine ⟨by simp [authGateFails, hb], fun _ => ?_, fun hc => by simp at hc⟩
    refine ⟨?_, ?_, ?_⟩ <;>
      simp [simpleGreetingFlowFn, greetingWithHistoryFlowFn, coffeeFlowFn,
        hattach, authGateFails, hb]
  | true =>
    refine ⟨by simp [authGateFails, hb], fun hc => by simp at hc, fun _ => ?_⟩
    refine ⟨?_, ?_⟩ <;>
      simp [simpleGreetingFlowFn, greetingWithHistoryFlowFn,
        hattach, authGateFails, hb]

/-- C1 witness: concrete contexts, one with a `Basic` credential (gate fails in
all three flows) and one with a bearer credential (leaf flows reduce to the
external call). -/
theorem c1_gate_bearer_check_witness :
    (authGateFails (GetHeaders (WithHeaders [] [("Authorization", ["Basic xyz"])])) = true ↔
      strStartsWith (hGet [("Authorization", ["Basic xyz"])] "Authorization") "Bearer " = false) ∧
    (strStartsWith (hGet [("Authorization", ["Basic xyz"])] "Authorization") "Bearer " = false →
      simpleGreetingFlowFn ⟨fun _ => Except.ok "g1", fun _ => Except.ok "g2"⟩
          (WithHeaders [] [("Authorization", ["Basic xyz"])]) ⟨"Sam"⟩ =
        Except.error "invalid authorization header" ∧
      greetingWithHistoryFlowFn ⟨fun _ => Except.ok "g1", fun _ => Except.ok "g2"⟩
          (WithHeaders [] [("Authorization", ["Basic xyz"])]) ⟨"Sam", "09:45am", "Caramel Macchiato"⟩ =
        Except.error "invalid authorization header" ∧
      coffeeFlowFn ⟨fun _ => Except.ok "g1", fun _ => Except.ok "g2"⟩
          (WithHeaders [] [("Authorization", ["Basic xyz"])]) () =
        Except.ok ⟨false, none, "invalid authorization header"⟩) ∧
    (strStartsWith (hGet [("Authorization", ["Basic xyz"])] "Authorization") "Bearer " = true →
      simpleGreetingFlowFn ⟨fun _ => Except.ok "g1", fun _ => Except.ok "g2"⟩
          (WithHeaders [] [("Authorization", ["Basic xyz"])]) ⟨"Sam"⟩ =
        (⟨fun _ => Except.ok "g1", fun _ => Except.ok "g2"⟩ : ModelOracle).simpleGreeting ⟨"Sam"⟩ ∧
      greetingWithHistoryFlowFn ⟨fun _ => Except.ok "g1", fun _ => Except.ok "g2"⟩
          (WithHeaders [] [("Authorization", ["Basic xyz"])]) ⟨"Sam", "09:45am", "Caramel Macchiato"⟩ =
        (⟨fun _ => Except.ok "g1", fun _ => Except.ok "g2"⟩ : ModelOracle).greetingWithHistory
          ⟨"Sam", "09:45am", "Caramel Macchiato"⟩) :=
  c1_gate_bearer_check ⟨fun _ => Except.ok "g1", fun _ => Except.ok "g2"⟩
    (WithHeaders [] [("Authorization", ["Basic xyz"])]) [("Authorization", ["Basic xyz"])]
    (by rfl) ⟨"Sam"⟩ ⟨"Sam", "09:45am", "Caramel Macchiato"⟩

/-- C2: When the context carries no header collection, the gate passes
trivially and each leaf flow proceeds to the external prompt-execution call:
its result is exactly the external call's result, so the flow itself never
produces the unauthorized error. -/
theorem c2_absent_headers_pass (o : ModelOracle) (ctx : GoContext)
    (habs : GetHeaders ctx = none) (in1 : simpleGreetingInput)
    (in2 : customerTimeAndHistoryInput) :
    authGateFails (GetHeaders ctx) = false ∧
    simpleGreetingFlowFn o ctx in1 = o.simpleGreeting in1 ∧
    greetingWithHistoryFlowFn o ctx in2 = o.greetingWithHistory in2 := by
  refine ⟨?_, ?_, ?_⟩ <;>
    simp [authGateFails, simpleGreetingFlowFn, greetingWithHistoryFlowFn, habs]

/-- C2 witness: direct internal invocation with the empty base context. -/
theorem c2_absent_headers_pass_witness :
    authGateFails (GetHeaders []) = false ∧
    simpleGreetingFlowFn ⟨fun _ => Except.ok "g1", fun _ => Except.ok "g2"⟩ [] ⟨"Sam"⟩ =
      (⟨fun _ => Except.ok "g1", fun _ => Except.ok "g2"⟩ : ModelOracle).simpleGreeting ⟨"Sam"⟩ ∧
    greetingWithHistoryFlowFn ⟨fun _ => Except.ok "g1", fun _ => Except.ok "g2"⟩ []
        ⟨"Sam", "09:45am", "Caramel Macchiato"⟩ =
      (⟨fun _ => Except.ok "g1", fun _ => Except.ok "g2"⟩ : ModelOracle).greetingWithHistory
        ⟨"Sam", "09:45am", "Caramel Macchiato"⟩ :=
  c2_absent_headers_pass ⟨fun _ => Except.ok "g1", fun _ => Except.ok "g2"⟩ [] (by rfl)
    ⟨"Sam"⟩ ⟨"Sam", "09:45am", "Caramel Macchiato"⟩

/-- C6: With the gate passing, the composite flow is exactly the sequential
composition: it runs simpleGreeting first; on failure it reports that message
without consulting the second prompt; otherwise it runs greetingWithHistory,
on failure reporting that message, and on success returns both reply texts in
invocation order. -/
theorem c6_fixed_order (o : ModelOracle) (ctx : GoContext)
    (hpass : authGateFails (GetHeaders ctx) = false) :
    coffeeFlowFn o ctx () =
      (match o.simpleGreeting ⟨"Sam"⟩ with
       | Except.error e => Except.ok ⟨false, none, e⟩
       | Except.ok t1 =>
         match o.greetingWithHistory ⟨"Sam", "09:45am", "Caramel Macchiato"⟩ with
         | Except.error e => Except.ok ⟨false, none, e⟩
         | Except.ok t2 => Except.ok ⟨true, some [t1, t2], ""⟩) := by
  simp only [coffeeFlowFn, simpleGreetingFlowFn, greetingWithHistoryFlowFn, hpass,
    Bool.false_eq_true, if_false]

/-- C6 witness: a context with a valid bearer header and an oracle whose first
prompt succeeds and whose second fails; the composite reports the second
failure's message. -/
theorem c6_fixed_order_witness :
    coffeeFlowFn ⟨fun _ => Except.ok "g1", fun _ => Except.error "boom"⟩
        (WithHeaders [] [("Authorization", ["Bearer tok"])]) () =
      (match (⟨fun _ => Except.ok "g1", fun _ => Except.error "boom"⟩ : ModelOracle).simpleGreeting ⟨"Sam"⟩ with
       | Except.error e => Except.ok ⟨false, none, e⟩
       | Except.ok t1 =>
         match (⟨fun _ => Except.ok "g1", fun _ => Except.error "boom"⟩ : ModelOracle).greetingWithHistory
             ⟨"Sam", "09:45am", "Caramel Macchiato"⟩ with
         | Except.error e => Except.ok ⟨false, none, e⟩
         | Except.ok t2 => Except.ok ⟨true, some [t1, t2], ""⟩) :=
  c6_fixed_order ⟨fun _ => Except.ok "g1", fun _ => Except.error "boom"⟩
    (WithHeaders [] [("Authorization", ["Bearer tok"])]) (by decide)

/-- C5: A POST whose body passes the decode step and whose `Authorization`
header does not begin with `"Bearer "` gets the in-band failure record with a
nil flow-level error: status 200 with JSON body
pass=false, error="invalid authorization header" — not a 500 transport
failure. The second component `true` records that the flow was invoked. -/
theorem c5_bad_auth_http_200 (o : ModelOracle) (rctx : GoContext)
    (r : HttpRequest) (hm : r.method = "POST")
    (hb : r.contentLength ≤ 0 ∨ r.bodyDecodeOk = true)
    (ha : strStartsWith (hGet r.header "Authorization") "Bearer " = false) :
    handleTestAllCoffeeFlows o rctx r =
      (⟨200, RespBody.jsonOut ⟨false, none, "invalid authorization header"⟩⟩, true) := by
  unfold handleTestAllCoffeeFlows
  rw [if_neg (by simp [hm])]
  have hbody : ¬ (r.contentLength > 0 ∧ r.bodyDecodeOk = false) := by
    rcases hb with hb | hb
    · exact fun hc => absurd hc.1 (by omega)
    · exact fun hc => by rw [hb] at hc; simp at hc
  rw [if_neg hbody]
  have hgate : authGateFails (GetHeaders (WithHeaders rctx r.header)) = true := by
    rw [c4_roundtrip]
    simp [authGateFails, ha]
  simp [coffeeFlowFn, hgate]

/-- C5 witness: a POST with empty body and `Authorization: Basic xyz`. -/
theorem c5_bad_auth_http_200_witness :
    handleTestAllCoffeeFlows ⟨fun _ => Except.ok "g1", fun _ => Except.ok "g2"⟩ []
        ⟨"POST", 0, true, [("Authorization", ["Basic xyz"])]⟩ =
      (⟨200, RespBody.jsonOut ⟨false, none, "invalid authorization header"⟩⟩, true) :=
  c5_bad_auth_http_200 ⟨fun _ => Except.ok "g1", fun _ => Except.ok "g2"⟩ []
    ⟨"POST", 0, true, [("Authorization", ["Basic xyz"])]⟩ rfl (Or.inl (by decide))
    (by decide)

/-- C7: On a POST whose body is non-empty (positive content length) and fails
JSON decoding — in particular any body that is not well-formed JSON — the
handler answers 400 "Invalid input" and never invokes the composite flow;
on an empty body the decode step is skipped and the flow is invoked. -/
theorem c7_malformed_body_400 (o : ModelOracle) (rctx : GoContext)
    (r : HttpRequest) (hm : r.method = "POST") :
    (r.contentLength > 0 → r.bodyDecodeOk = false →
      handleTestAllCoffeeFlows o rctx r = (⟨400, RespBody.text "Invalid input"⟩, false)) ∧
    (r.contentLength ≤ 0 → (handleTestAllCoffeeFlows o rctx r).2 = true) := by
  constructor
  · intro hlen hdec
    unfold handleTestAllCoffeeFlows
    rw [if_neg (by simp [hm])]
    rw [if_pos ⟨hlen, hdec⟩]
  · intro hlen
    unfold handleTestAllCoffeeFlows
    rw [if_neg (by simp [hm])]
    rw [if_neg (fun hc => absurd hc.1 (by omega))]
    rcases hrun : coffeeFlowFn o (WithHeaders rctx r.header) () with e | out <;> simp [hrun]

/-- C7 witness: a POST whose 8-byte body fails to decode is rejected with 400
and the flow flag stays false; a POST with empty body reaches the flow. -/
theorem c7_malformed_body_400_witness :
    (((8 : Int) > 0 → false = false →
      handleTestAllCoffeeFlows ⟨fun _ => Except.ok "g1", fun _ => Except.ok "g2"⟩ []
          ⟨"POST", 8, false, []⟩ = (⟨400, RespBody.text "Invalid input"⟩, false)) ∧
    ((8 : Int) ≤ 0 →
      (handleTestAllCoffeeFlows ⟨fun _ => Except.ok "g1", fun _ => Except.ok "g2"⟩ []
          ⟨"POST", 8, false, []⟩).2 = true)) ∧
    (((0 : Int) > 0 → true = false →
      handleTestAllCoffeeFlows ⟨fun _ => Except.ok "g1", fun _ => Except.ok "g2"⟩ []
          ⟨"POST", 0, true, []⟩ = (⟨400, RespBody.text "Invalid input"⟩, false)) ∧
    ((0 : Int) ≤ 0 →
      (handleTestAllCoffeeFlows ⟨fun _ => Except.ok "g1", fun _ => Except.ok "g2"⟩ []
          ⟨"POST", 0, true, []⟩).2 = true)) :=
  ⟨c7_malformed_body_400 ⟨fun _ => Except.ok "g1", fun _ => Except.ok "g2"⟩ []
      ⟨"POST", 8, false, []⟩ rfl,
   c7_malformed_body_400 ⟨fun _ => Except.ok "g1", fun _ => Except.ok "g2"⟩ []
      ⟨"POST", 0, true, []⟩ rfl⟩

/-- C9: Noninterference of the request body — the composite flow's input is the
empty record and the leaf-flow inputs are the fixed constants Sam / 09:45am /
Caramel Macchiato, so two requests that agree on method and headers and both
pass the body-decode step produce identical handler results, whatever their
bodies were. -/
theorem c9_body_noninterference (o : ModelOracle) (rctx : GoContext)
    (r1 r2 : HttpRequest) (hm : r1.method = r2.method)
    (hh : r1.header = r2.header)
    (h1 : r1.contentLength ≤ 0 ∨ r1.bodyDecodeOk = true)
    (h2 : r2.contentLength ≤ 0 ∨ r2.bodyDecodeOk = true) :
    handleTestAllCoffeeFlows o rctx r1 = handleTestAllCoffeeFlows o rctx r2 := by
  unfold handleTestAllCoffeeFlows
  rw [hm, hh]
  by_cases hpost : r2.method ≠ "POST"
  · rw [if_pos hpost, if_pos hpost]
  · rw [if_neg hpost, if_neg hpost]
    have hb1 : ¬ (r1.contentLength > 0 ∧ r1.bodyDecodeOk = false) := by
      rcases h1 with h | h
      · exact fun hc => absurd hc.1 (by omega)
      · exact fun hc => by rw [h] at hc; simp at hc
    have hb2 : ¬ (r2.contentLength > 0 ∧ r2.bodyDecodeOk = false) := by
      rcases h2 with h | h
      · exact fun hc => absurd hc.1 (by omega)
      · exact fun hc => by rw [h] at hc; simp at hc
    rw [if_neg hb1, if_neg hb2]

/-- C9 witness: one request with an empty body and one with a decoded
non-empty body, same bearer header, give the same result. -/
theorem c9_body_noninterference_witness :
    handleTestAllCoffeeFlows ⟨fun _ => Except.ok "g1", fun _ => Except.ok "g2"⟩ []
        ⟨"POST", 0, false, [("Authorization", ["Bearer tok"])]⟩ =
      handleTestAllCoffeeFlows ⟨fun _ => Except.ok "g1", fun _ => Except.ok "g2"⟩ []
        ⟨"POST", 9, true, [("Authorization", ["Bearer tok"])]⟩ :=
  c9_body_noninterference ⟨fun _ => Except.ok "g1", fun _ => Except.ok "g2"⟩ []
    ⟨"POST", 0, false, [("Authorization", ["Bearer tok"])]⟩
    ⟨"POST", 9, true, [("Authorization", ["Bearer tok"])]⟩
    rfl rfl (Or.inl (by decide)) (Or.inr rfl)

/-- C10: An attached collection with no `Authorization` entry at all, or one
whose entry is the empty value, makes `Get` yield `""`, which lacks the
`"Bearer "` head, so all three flows fail with the invalid-authorization
condition — in contrast to a wholly absent collection, on which the gate
passes. -/
theorem c10_missing_auth_entry_fails (o : ModelOracle) (ctx : GoContext)
    (h : Headers) (hattach : GetHeaders ctx = some h)
    (hmiss : (∀ p ∈ h, p.1 ≠ "Authorization") ∨ hGet h "Authorization" = "")
    (in1 : simpleGreetingInput) (in2 : customerTimeAndHistoryInput) :
    hGet h "Authorization" = "" ∧
    simpleGreetingFlowFn o ctx in1 = Except.error "invalid authorization header" ∧
    greetingWithHistoryFlowFn o ctx in2 = Except.error "invalid authorization header" ∧
    coffeeFlowFn o ctx () = Except.ok ⟨false, none, "invalid authorization header"⟩ ∧
    authGateFails none = false := by
  have hempty : hGet h "Authorization" = "" := by
    rcases hmiss with hmiss | hmiss
    · exact hGet_eq_empty_of_no_key h "Authorization" hmiss
    · exact hmiss
  have hgate : authGateFails (GetHeaders ctx) = true := by
    rw [hattach]
    simp [authGateFails, hempty]
    decide
  exact ⟨hempty,
    by simp [simpleGreetingFlowFn, hgate],
    by simp [greetingWithHistoryFlowFn, hgate],
    by simp [coffeeFlowFn, hgate],
    rfl⟩

/-- C10 witness: an attached collection holding only an unrelated header. -/
theorem c10_missing_auth_entry_fails_witness :
    hGet [("X-Request-Id", ["abc"])] "Authorization" = "" ∧
    simpleGreetingFlowFn ⟨fun _ => Except.ok "g1", fun _ => Except.ok "g2"⟩
        (WithHeaders [] [("X-Request-Id", ["abc"])]) ⟨"Sam"⟩ =
      Except.error "invalid authorization header" ∧
    greetingWithHistoryFlowFn ⟨fun _ => Except.ok "g1", fun _ => Except.ok "g2"⟩
        (WithHeaders [] [("X-Request-Id", ["abc"])]) ⟨"Sam", "09:45am", "Caramel Macchiato"⟩ =
      Except.error "invalid authorization header" ∧
    coffeeFlowFn ⟨fun _ => Except.ok "g1", fun _ => Except.ok "g2"⟩
        (WithHeaders [] [("X-Request-Id", ["abc"])]) () =
      Except.ok ⟨false, none, "invalid authorization header"⟩ ∧
    authGateFails none = false :=
  c10_missing_auth_entry_fails ⟨fun _ => Except.ok "g1", fun _ => Except.ok "g2"⟩
    (WithHeaders [] [("X-Request-Id", ["abc"])]) [("X-Request-Id", ["abc"])] (by rfl)
    (Or.inr (by decide)) ⟨"Sam"⟩ ⟨"Sam", "09:45am", "Caramel Macchiato"⟩

/-- C3 counterexample: with an external prompt call failing with an
empty error message (legal for a Go error), the composite flow returns the
record pass=false, replies=none, error="", so the error string is empty —
absent under omitempty — while pass is false, refuting the claimed
three-way equality pass == (replies present) == (error absent). -/
theorem c3_invariant_counterexample :
    coffeeFlowFn ⟨fun _ => Except.error "", fun _ => Except.error ""⟩ [] () =
      Except.ok ⟨false, none, ""⟩ ∧
    ¬ (∀ out : testAllCoffeeFlowsOutput,
        coffeeFlowFn ⟨fun _ => Except.error "", fun _ => Except.error ""⟩ [] () =
          Except.ok out → out.pass = false → out.error ≠ "") := by
  refine ⟨by rfl, fun hall => ?_⟩
  exact hall ⟨false, none, ""⟩ (by rfl) rfl rfl

/-- C3 (amended): every result record of the composite flow satisfies
pass ↔ replies present, pass → error empty, and not-pass → replies absent;
the remaining leg — error non-empty when pass is false — holds whenever the
external prompt calls never fail with an empty error message. -/
theorem c3_result_invariant (o : ModelOracle) (ctx : GoContext)
    (out : testAllCoffeeFlowsOutput)
    (hrun : coffeeFlowFn o ctx () = Except.ok out) :
    (out.pass = true ↔ out.replies.isSome = true) ∧
    (out.pass = true → out.error = "") ∧
    (out.pass = false → out.replies = none) ∧
    ((∀ i e, o.simpleGreeting i = Except.error e → e ≠ "") →
     (∀ i e, o.greetingWithHistory i = Except.error e → e ≠ "") →
     out.pass = false → out.error ≠ "") := by
  unfold coffeeFlowFn at hrun
  by_cases hgate : authGateFails (GetHeaders ctx) = true
  · rw [if_pos hgate] at hrun
    obtain rfl : (⟨false, none, "invalid authorization header"⟩ :
        testAllCoffeeFlowsOutput) = out := by
      exact Except.ok.inj hrun
    refine ⟨by simp, by simp, fun _ => rfl, fun _ _ _ => by simp⟩
  · rw [if_neg hgate] at hrun
    have hgate' : authGateFails (GetHeaders ctx) = false := by
      simpa using hgate
    rcases h1 : o.simpleGreeting ⟨"Sam"⟩ with e1 | t1
    · rw [show simpleGreetingFlowFn o ctx ⟨"Sam"⟩ = Except.error e1 by
        simp [simpleGreetingFlowFn, hgate', h1]] at hrun
      obtain rfl : (⟨false, none, e1⟩ : testAllCoffeeFlowsOutput) = out :=
        Except.ok.inj hrun
      exact ⟨by simp, by simp, fun _ => rfl,
        fun hs _ _ => hs ⟨"Sam"⟩ e1 h1⟩
    · rw [show simpleGreetingFlowFn o ctx ⟨"Sam"⟩ = Except.ok t1 by
        simp [simpleGreetingFlowFn, hgate', h1]] at hrun
      rcases h2 : o.greetingWithHistory ⟨"Sam", "09:45am", "Caramel Macchiato"⟩ with e2 | t2
      · rw [show greetingWithHistoryFlowFn o ctx ⟨"Sam", "09:45am", "Caramel Macchiato"⟩ =
            Except.error e2 by
          simp [greetingWithHistoryFlowFn, hgate', h2]] at hrun
        obtain rfl : (⟨false, none, e2⟩ : testAllCoffeeFlowsOutput) = out :=
          Except.ok.inj hrun
        exact ⟨by simp, by simp, fun _ => rfl,
          fun _ hg _ => hg ⟨"Sam", "09:45am", "Caramel Macchiato"⟩ e2 h2⟩
      · rw [show greetingWithHistoryFlowFn o ctx ⟨"Sam", "09:45am", "Caramel Macchiato"⟩ =
            Except.ok t2 by
          simp [greetingWithHistoryFlowFn, hgate', h2]] at hrun
        obtain rfl : (⟨true, some [t1, t2], ""⟩ : testAllCoffeeFlowsOutput) = out :=
          Except.ok.inj hrun
        exact ⟨by simp, fun _ => rfl, by simp, fun _ _ hc => by simp at hc⟩

/-- C3 witness: a successful run through both prompts yields
pass=true, replies=[g1, g2], error="", satisfying every leg. -/
theorem c3_result_invariant_witness :
    (((⟨true, some ["g1", "g2"], ""⟩ : testAllCoffeeFlowsOutput).pass = true ↔
      (⟨true, some ["g1", "g2"], ""⟩ : testAllCoffeeFlowsOutput).replies.isSome = true) ∧
    ((⟨true, some ["g1", "g2"], ""⟩ : testAllCoffeeFlowsOutput).pass = true →
      (⟨true, some ["g1", "g2"], ""⟩ : testAllCoffeeFlowsOutput).error = "") ∧
    ((⟨true, some ["g1", "g2"], ""⟩ : testAllCoffeeFlowsOutput).pass = false →
      (⟨true, some ["g1", "g2"], ""⟩ : testAllCoffeeFlowsOutput).replies = none) ∧
    ((∀ i e, (⟨fun _ => Except.ok "g1", fun _ => Except.ok "g2"⟩ : ModelOracle).simpleGreeting i =
        Except.error e → e ≠ "") →
     (∀ i e, (⟨fun _ => Except.ok "g1", fun _ => Except.ok "g2"⟩ : ModelOracle).greetingWithHistory i =
        Except.error e → e ≠ "") →
     (⟨true, some ["g1", "g2"], ""⟩ : testAllCoffeeFlowsOutput).pass = false →
     (⟨true, some ["g1", "g2"], ""⟩ : testAllCoffeeFlowsOutput).error ≠ "")) :=
  c3_result_invariant ⟨fun _ => Except.ok "g1", fun _ => Except.ok "g2"⟩ []
    ⟨true, some ["g1", "g2"], ""⟩ (by rfl)
